import Mathlib

set_option maxRecDepth 8000

/-!
Verification of the U`King DMX controller core (`dmx_server.py`).

The Python program keeps a 512-slot DMX universe (`dmx_data`), an optional
serial handle (`serial_port`), a `running` flag and a background update
thread.  We embed the controller state and its operations as pure Lean
functions; the environment-dependent outcomes (which serial ports exist,
whether opening a port or writing to it succeeds) are passed in as explicit
parameters.
-/

namespace DMX

/-- A connected serial handle: the port name it was opened on and whether it
is still open (`close()` flips `isOpen` to false but the Python object — and
hence the `serial_port` field — survives). -/
structure SerialHandle where
  port : String
  isOpen : Bool
deriving DecidableEq, Repr

/-- One entry of `serial.tools.list_ports.comports()`: the device path and
the human-readable description used by the keyword allowlist. -/
structure PortInfo where
  device : String
  description : String
deriving DecidableEq, Repr

/-- The mutable state of `DMXController`: `dmx_data` (the 512-channel
universe), `serial_port`, `running`, and `update_thread` (modelled as a
Bool: whether a background loop thread has been spawned). -/
structure DMXState where
  dmx_data : List Int
  serial_port : Option SerialHandle
  running : Bool
  update_thread : Bool
deriving DecidableEq, Repr

/-- State set up by `__init__` before any connection attempt: `[0]*512`, no port, not
running, no thread. -/
def initState : DMXState :=
  { dmx_data := List.replicate 512 0
    serial_port := none
    running := false
    update_thread := false }

/-- The clamp `max(0, min(255, value))` applied by `set_channel`. -/
def clamp (v : Int) : Int := max 0 (min 255 v)

/-- Python `set_channel(channel, value)`: if `1 <= channel <= 512`, store the
clamped value at index `channel - 1`; otherwise do nothing. -/
def set_channel (s : DMXState) (channel value : Int) : DMXState :=
  if 1 ≤ channel ∧ channel ≤ 512 then
    { s with dmx_data := s.dmx_data.set (channel - 1).toNat (clamp value) }
  else s

/-- Python `set_channels(start_channel, values)`: `for i, value in
enumerate(values): self.set_channel(start_channel + i, value)`, rendered as
structural recursion that advances the start channel. -/
def set_channels : DMXState → Int → List Int → DMXState
  | s, _, [] => s
  | s, st, v :: vs => set_channels (set_channel s st v) (st + 1) vs

/-- Reading channel `c` back from the universe buffer (index `c - 1`,
defaulting to 0 off the end). -/
def readChannel (s : DMXState) (c : Int) : Int :=
  s.dmx_data.getD (c - 1).toNat 0

/-- The ENTTEC frame assembled by `send_dmx_packet` from a universe
snapshot: `0x7E`, label `0x06`, payload length (LSB, MSB) where the payload
is the start code `0x00` followed by the channel data, the payload itself,
and the end byte `0xE7`. -/
def buildPacket (dmxData : List Int) : List Int :=
  let dmxPacket : List Int := 0x00 :: dmxData
  let len : Nat := dmxPacket.length
  [0x7E, 0x06, ((len &&& 0xFF : Nat) : Int), (((len >>> 8) &&& 0xFF : Nat) : Int)]
    ++ dmxPacket ++ [0xE7]

/-- Python `send_dmx_packet()`: returns `False` immediately when no serial port is
set; otherwise writes the frame and returns the write outcome (`writeOk`
stands for whether `serial_port.write` raises).  Result: (new state, boolean
result, bytes handed to `write`, if any).  No field of the controller is
mutated in either case. -/
def send_dmx_packet (s : DMXState) (writeOk : Bool) :
    DMXState × Bool × Option (List Int) :=
  match s.serial_port with
  | none => (s, false, none)
  | some _ => (s, writeOk, some (buildPacket s.dmx_data))

/-- Python `start_updates()`: no-op when already running; otherwise set `running`
and spawn the update thread. -/
def start_updates (s : DMXState) : DMXState :=
  if s.running then s
  else { s with running := true, update_thread := true }

/-- Python `connect(port, baudrate)`: `openOk` stands for whether
`serial.Serial(...)` succeeds.  On success the handle is stored and
`start_updates` runs; on failure the exception is caught, nothing changes
and `False` is returned. -/
def connect (s : DMXState) (port : String) (openOk : Bool) : DMXState × Bool :=
  if openOk then
    (start_updates { s with serial_port := some { port := port, isOpen := true } }, true)
  else (s, false)

/-- Does `pat` occur as a prefix of `cs`? (char-list helper for the
keyword allowlist test). -/
def leadsWith : List Char → List Char → Bool
  | [], _ => true
  | _ :: _, [] => false
  | p :: ps, c :: cs => p = c && leadsWith ps cs

/-- Does `pat` occur as a contiguous substring of `s`? -/
def containsSub (pat : List Char) : List Char → Bool
  | [] => leadsWith pat []
  | c :: rest => leadsWith pat (c :: rest) || containsSub pat rest

/-- The keyword allowlist of `auto_connect`. -/
def keywords : List String := ["dmx", "enttec", "ftdi", "dmxking", "usb serial"]

/-- Rendering of `description.lower()` as a char list (Python `str.lower` acts
per character; the allowlist keywords are ASCII). -/
def lowerChars (s : String) : List Char := s.toList.map Char.toLower

/-- The test `any(keyword in port.description.lower() for keyword in [...])`. -/
def descrMatches (description : String) : Bool :=
  keywords.any fun kw => containsSub kw.toList (lowerChars description)

/-- Python `auto_connect(baudrate)`: scan the enumerated ports in order; on the
first port whose description matches the allowlist, call `connect` and
return `True`.  (`connect` catches its own exceptions and returns a Bool,
so the `except ... continue` branch around it never fires: `True` is
returned for the first matching port whether or not the open succeeded,
`openOk` giving each port's open outcome.)  If no port matches, return
`False`. -/
def auto_connect (s : DMXState) (ports : List PortInfo) (openOk : String → Bool) :
    DMXState × Bool :=
  match ports with
  | [] => (s, false)
  | p :: rest =>
    if descrMatches p.description then
      ((connect s p.device (openOk p.device)).fst, true)
    else auto_connect s rest openOk

/-- Python `stop()`: clear `running`, join the thread (no state change), and close
the serial handle if present — the `serial_port` field itself keeps the
(now closed) handle. -/
def stop (s : DMXState) : DMXState :=
  { s with running := false
           serial_port := s.serial_port.map fun h => { h with isOpen := false } }

/-- Route `GET /status`: `(connected, port, running)` where `connected` is
`serial_port is not None`. -/
def get_status (s : DMXState) : Bool × Option String × Bool :=
  (s.serial_port.isSome, s.serial_port.map (·.port), s.running)

/-- Route `POST /dmx`: read `startAddress` (default 1) and `channels` (default
`[]`) from the request, apply `set_channels`, and answer with the address
and the number of channels processed. -/
def update_dmx (s : DMXState) (startAddress : Option Int)
    (channels : Option (List Int)) : DMXState × Int × Nat :=
  let sa := startAddress.getD 1
  let ch := channels.getD []
  (set_channels s sa ch, sa, ch.length)

/-- Route `POST /blackout`: replace the whole universe with `[0]*512` in one
assignment. -/
def blackout (s : DMXState) : DMXState :=
  { s with dmx_data := List.replicate 512 0 }

/-- The buffer invariant of the spec: exactly 512 slots, each in [0,255]. -/
def Inv (s : DMXState) : Prop :=
  s.dmx_data.length = 512 ∧ ∀ v ∈ s.dmx_data, 0 ≤ v ∧ v ≤ 255

instance (s : DMXState) : Decidable (Inv s) := by
  unfold Inv; infer_instance

/-! ### Helper lemmas -/

lemma clamp_nonneg (v : Int) : 0 ≤ clamp v := le_max_left 0 _

lemma clamp_le (v : Int) : clamp v ≤ 255 := by
  unfold clamp; omega

lemma set_channel_dmx_data (s : DMXState) (c v : Int)
    (h1 : 1 ≤ c) (h2 : c ≤ 512) :
    (set_channel s c v).dmx_data = s.dmx_data.set (c - 1).toNat (clamp v) := by
  unfold set_channel
  rw [if_pos ⟨h1, h2⟩]

lemma set_channel_of_not_in_range (s : DMXState) (c v : Int)
    (h : ¬ (1 ≤ c ∧ c ≤ 512)) : set_channel s c v = s := by
  unfold set_channel
  rw [if_neg h]

lemma set_channel_length (s : DMXState) (c v : Int) :
    (set_channel s c v).dmx_data.length = s.dmx_data.length := by
  unfold set_channel
  split <;> simp

lemma set_channel_serial_port (s : DMXState) (c v : Int) :
    (set_channel s c v).serial_port = s.serial_port := by
  unfold set_channel
  split <;> rfl

lemma set_channel_running (s : DMXState) (c v : Int) :
    (set_channel s c v).running = s.running := by
  unfold set_channel
  split <;> rfl

lemma readChannel_set_channel_self (s : DMXState) (c v : Int)
    (hlen : s.dmx_data.length = 512) (h1 : 1 ≤ c) (h2 : c ≤ 512) :
    readChannel (set_channel s c v) c = clamp v := by
  unfold readChannel
  rw [set_channel_dmx_data s c v h1 h2, List.getD_eq_getElem?_getD,
    List.getElem?_set_self (by rw [hlen]; omega)]
  rfl

lemma readChannel_set_channel_ne (s : DMXState) (c c' v : Int)
    (h : (c - 1).toNat ≠ (c' - 1).toNat) :
    readChannel (set_channel s c v) c' = readChannel s c' := by
  unfold readChannel set_channel
  split
  · simp only [List.getD_eq_getElem?_getD, List.getElem?_set_ne h]
  · rfl

lemma Inv_set_channel (s : DMXState) (c v : Int) (h : Inv s) :
    Inv (set_channel s c v) := by
  obtain ⟨hlen, hmem⟩ := h
  unfold set_channel
  split
  · refine ⟨by simpa using hlen, ?_⟩
    intro w hw
    rcases List.mem_or_eq_of_mem_set hw with hw' | hw'
    · exact hmem w hw'
    · subst hw'
      exact ⟨clamp_nonneg v, clamp_le v⟩
  · exact ⟨hlen, hmem⟩

lemma Inv_set_channels (s : DMXState) (st : Int) (vs : List Int) (h : Inv s) :
    Inv (set_channels s st vs) := by
  induction vs generalizing s st with
  | nil => exact h
  | cons v vs ih => exact ih _ _ (Inv_set_channel s st v h)

lemma Inv_initState : Inv initState := by
  refine ⟨by simp only [initState, List.length_replicate], ?_⟩
  intro v hv
  have := List.eq_of_mem_replicate (show v ∈ List.replicate 512 (0 : Int) from hv)
  omega

lemma set_channels_length (s : DMXState) (st : Int) (vs : List Int) :
    (set_channels s st vs).dmx_data.length = s.dmx_data.length := by
  induction vs generalizing s st with
  | nil => rfl
  | cons v vs ih => rw [set_channels, ih, set_channel_length]

lemma set_channels_out_of_range (s : DMXState) (st : Int) (vs : List Int)
    (h : 512 < st) : set_channels s st vs = s := by
  induction vs generalizing s st with
  | nil => rfl
  | cons v vs ih =>
    rw [set_channels, set_channel_of_not_in_range s st v (by omega)]
    exact ih s (st + 1) (by omega)

lemma Inv_of_dmx_data_eq (s s' : DMXState) (hd : s'.dmx_data = s.dmx_data)
    (h : Inv s) : Inv s' := by
  unfold Inv
  rw [hd]
  exact h

lemma start_updates_dmx_data (s : DMXState) :
    (start_updates s).dmx_data = s.dmx_data := by
  unfold start_updates
  split <;> rfl

lemma connect_dmx_data (s : DMXState) (p : String) (ok : Bool) :
    (connect s p ok).fst.dmx_data = s.dmx_data := by
  unfold connect
  split
  · rw [start_updates_dmx_data]
  · rfl

lemma auto_connect_dmx_data (s : DMXState) (ports : List PortInfo)
    (openOk : String → Bool) :
    (auto_connect s ports openOk).fst.dmx_data = s.dmx_data := by
  induction ports with
  | nil => rfl
  | cons p rest ih =>
    unfold auto_connect
    split
    · exact connect_dmx_data s p.device (openOk p.device)
    · exact ih

lemma send_dmx_packet_fst (s : DMXState) (wok : Bool) :
    (send_dmx_packet s wok).fst = s := by
  unfold send_dmx_packet
  split <;> rfl

lemma Inv_replicate_512 (s : DMXState) (hd : s.dmx_data = List.replicate 512 0) :
    Inv s := by
  refine ⟨by rw [hd, List.length_replicate], ?_⟩
  intro v hv
  rw [hd] at hv
  have := List.eq_of_mem_replicate hv
  omega

/-! ### Claim theorems -/

/-- C1: for any 512-slot universe with values in [0,255], `send_dmx_packet`
frames it as start `0x7E`, label `0x06`, length LSB `0x01` and MSB `0x02`
(little-endian 513), a 513-byte payload of start code `0x00` plus the 512
channel values in order, and end byte `0xE7` — 518 bytes in total. -/
theorem C1_packet_framing (data : List Int) (hlen : data.length = 512)
    (hrange : ∀ v ∈ data, 0 ≤ v ∧ v ≤ 255) :
    buildPacket data =
      0x7E :: 0x06 :: 0x01 :: 0x02 :: 0x00 :: (data ++ [0xE7]) ∧
    (buildPacket data).length = 518 := by
  constructor
  · simp [buildPacket, hlen]
    decide
  · simp [buildPacket, hlen]

/-- C1 witness: concrete vector — all zero except channel 1 = 255 and
channel 512 = 10 encodes to `7E 06 01 02 00 FF 00×510 0A E7`. -/
theorem C1_packet_framing_witness :
    buildPacket (255 :: (List.replicate 510 (0 : Int) ++ [10])) =
      [0x7E, 0x06, 0x01, 0x02, 0x00, 0xFF] ++
        (List.replicate 510 (0 : Int) ++ [0x0A, 0xE7]) := by
  have h := (C1_packet_framing (255 :: (List.replicate 510 (0 : Int) ++ [10]))
    (by simp) (by decide)).1
  rw [h]
  simp

/-- C2: for channels in [1,512], `set_channel` stores the clamped value at
index `channel-1` (read-back gives `clamp(v,0,255)`); outside [1,512] it is
a silent no-op leaving the state unchanged. -/
theorem C2_set_channel_spec (s : DMXState) (c v : Int)
    (hlen : s.dmx_data.length = 512) :
    (1 ≤ c → c ≤ 512 → readChannel (set_channel s c v) c = clamp v) ∧
    (¬ (1 ≤ c ∧ c ≤ 512) → set_channel s c v = s) :=
  ⟨fun h1 h2 => readChannel_set_channel_self s c v hlen h1 h2,
   fun h => set_channel_of_not_in_range s c v h⟩

/-- C2 witness: channel 1 set to 300 reads back as `clamp 300 = 255`;
channel 600 is a no-op. -/
theorem C2_set_channel_spec_witness :
    readChannel (set_channel initState 1 300) 1 = clamp 300 ∧
    set_channel initState 600 7 = initState :=
  ⟨(C2_set_channel_spec initState 1 300
      (by simp only [initState, List.length_replicate])).1 (by decide) (by decide),
   (C2_set_channel_spec initState 600 7
      (by simp only [initState, List.length_replicate])).2 (by decide)⟩

/-- C3: `set_channels` applies `set_channel(start+i, values[i])` in order;
the empty sequence is a no-op, a call addressed entirely past channel 512
is dropped, and `set_channels(5,[10,20,30])` sets channels 5, 6, 7 to
10, 20, 30 while every other channel reads back unchanged. -/
theorem C3_set_channels_spec (s : DMXState) (hlen : s.dmx_data.length = 512) :
    (∀ st, set_channels s st [] = s) ∧
    (∀ st v vs, set_channels s st (v :: vs) =
      set_channels (set_channel s st v) (st + 1) vs) ∧
    (∀ st vs, 512 < st → set_channels s st vs = s) ∧
    readChannel (set_channels s 5 [10, 20, 30]) 5 = 10 ∧
    readChannel (set_channels s 5 [10, 20, 30]) 6 = 20 ∧
    readChannel (set_channels s 5 [10, 20, 30]) 7 = 30 ∧
    (∀ c : Int, (c < 5 ∨ 7 < c) →
      readChannel (set_channels s 5 [10, 20, 30]) c = readChannel s c) := by
  have hunfold : set_channels s 5 [10, 20, 30] =
      set_channel (set_channel (set_channel s 5 10) 6 20) 7 30 := rfl
  have hlen1 : (set_channel s 5 10).dmx_data.length = 512 := by
    rw [set_channel_length, hlen]
  have hlen2 : (set_channel (set_channel s 5 10) 6 20).dmx_data.length = 512 := by
    rw [set_channel_length, hlen1]
  refine ⟨fun _ => rfl, fun _ _ _ => rfl,
    fun st vs h => set_channels_out_of_range s st vs h, ?_, ?_, ?_, ?_⟩
  · rw [hunfold, readChannel_set_channel_ne _ 7 5 _ (by decide),
      readChannel_set_channel_ne _ 6 5 _ (by decide),
      readChannel_set_channel_self s 5 10 hlen (by decide) (by decide)]
    decide
  · rw [hunfold, readChannel_set_channel_ne _ 7 6 _ (by decide),
      readChannel_set_channel_self _ 6 20 hlen1 (by decide) (by decide)]
    decide
  · rw [hunfold,
      readChannel_set_channel_self _ 7 30 hlen2 (by decide) (by decide)]
    decide
  · intro c hc
    rw [hunfold, readChannel_set_channel_ne _ 7 c _ (by omega),
      readChannel_set_channel_ne _ 6 c _ (by omega),
      readChannel_set_channel_ne _ 5 c _ (by omega)]

/-- C3 witness: the concrete call on the fresh controller. -/
theorem C3_set_channels_spec_witness :
    readChannel (set_channels initState 5 [10, 20, 30]) 5 = 10 ∧
    readChannel (set_channels initState 5 [10, 20, 30]) 4 = readChannel initState 4 := by
  have h := C3_set_channels_spec initState
    (by simp only [initState, List.length_replicate])
  exact ⟨h.2.2.2.1, h.2.2.2.2.2.2 4 (by decide)⟩

/-- C4: `blackout` replaces the universe, in one assignment, by 512 zeros;
every channel read after it yields 0, whatever the prior state. -/
theorem C4_blackout_spec (s : DMXState) :
    (blackout s).dmx_data = List.replicate 512 0 ∧
    ∀ c : Int, readChannel (blackout s) c = 0 := by
  refine ⟨rfl, ?_⟩
  intro c
  unfold readChannel blackout
  simp only [List.getD_eq_getElem?_getD, List.getElem?_replicate]
  split <;> rfl

/-- C5: the buffer invariant (length 512, all values in [0,255]) holds for
the freshly initialised controller and is preserved by every operation:
`set_channel`, `set_channels`, `blackout`, `connect`, `auto_connect`,
`send_dmx_packet`, `start_updates`, `stop`. -/
theorem C5_invariant_preserved (s : DMXState) (c v st : Int) (vs : List Int)
    (ports : List PortInfo) (openOk : String → Bool) (p : String)
    (ok wok : Bool) (h : Inv s) :
    Inv initState ∧
    Inv (set_channel s c v) ∧
    Inv (set_channels s st vs) ∧
    Inv (blackout s) ∧
    Inv (connect s p ok).fst ∧
    Inv (auto_connect s ports openOk).fst ∧
    Inv (send_dmx_packet s wok).fst ∧
    Inv (start_updates s) ∧
    Inv (stop s) := by
  refine ⟨Inv_initState, Inv_set_channel s c v h, Inv_set_channels s st vs h,
    Inv_replicate_512 _ rfl,
    Inv_of_dmx_data_eq s _ (connect_dmx_data s p ok) h,
    Inv_of_dmx_data_eq s _ (auto_connect_dmx_data s ports openOk) h,
    Inv_of_dmx_data_eq s _ (by rw [send_dmx_packet_fst]) h,
    Inv_of_dmx_data_eq s _ (start_updates_dmx_data s) h,
    Inv_of_dmx_data_eq s _ rfl h⟩

/-- C5 witness: the invariant after an out-of-bounds write and after a
blackout on the fresh controller. -/
theorem C5_invariant_preserved_witness :
    Inv (set_channel initState 3 999) ∧ Inv (blackout initState) := by
  have h := C5_invariant_preserved initState 3 999 1 [1, 2, 3] []
    (fun _ => false) "p" true true (by decide)
  exact ⟨h.2.1, h.2.2.2.1⟩

/-- C6 (divergence witness): one enumerated port whose description
("USB Serial Port") matches the allowlist but whose open fails.
`auto_connect` returns `True` — not the "no device" failure the claim
requires when every open attempt fails — while the state is unchanged, so
`status` afterwards still reports connected = false.  (In the source,
`connect` catches its own exceptions and returns `False`, so the
`except/continue` branch of `auto_connect` is dead and `True` is returned
for the first matching port unconditionally.)  A non-matching port, by
contrast, is never attempted and yields the correct `False`. -/
theorem C6_auto_connect_bug :
    (auto_connect initState [⟨"/dev/ttyUSB0", "USB Serial Port"⟩]
      (fun _ => false)).snd = true ∧
    (auto_connect initState [⟨"/dev/ttyUSB0", "USB Serial Port"⟩]
      (fun _ => false)).fst = initState ∧
    get_status (auto_connect initState [⟨"/dev/ttyUSB0", "USB Serial Port"⟩]
      (fun _ => false)).fst = (false, none, false) ∧
    (auto_connect initState [⟨"/dev/ttyS0", "Bluetooth Device"⟩]
      (fun _ => true)).snd = false := by
  refine ⟨?_, ?_, ?_, ?_⟩ <;> decide

/-- C7: a failing write on one tick is reported as a `False` result, leaves
the whole controller state (universe, running flag, connection handle)
unchanged, and the next tick hands `write` a frame built from a fresh
snapshot of the then-current universe. -/
theorem C7_tick_failure (s : DMXState) (h : s.serial_port.isSome) :
    (send_dmx_packet s false).fst = s ∧
    (send_dmx_packet s false).snd.fst = false ∧
    (send_dmx_packet s false).snd.snd = some (buildPacket s.dmx_data) ∧
    ∀ c v ok,
      (send_dmx_packet (set_channel (send_dmx_packet s false).fst c v) ok).snd.snd =
        some (buildPacket (set_channel s c v).dmx_data) := by
  obtain ⟨hd, hhd⟩ := Option.isSome_iff_exists.mp h
  refine ⟨send_dmx_packet_fst s false, ?_, ?_, ?_⟩
  · simp [send_dmx_packet, hhd]
  · simp [send_dmx_packet, hhd]
  · intro c v ok
    rw [send_dmx_packet_fst]
    have hsp : (set_channel s c v).serial_port = some hd := by
      rw [set_channel_serial_port, hhd]
    simp [send_dmx_packet, hsp]

/-- C7 witness: a connected controller with an all-zero universe. -/
theorem C7_tick_failure_witness :
    (send_dmx_packet
      (DMXState.mk (List.replicate 512 0) (some ⟨"/dev/ttyUSB0", true⟩) true true)
      false).fst =
      DMXState.mk (List.replicate 512 0) (some ⟨"/dev/ttyUSB0", true⟩) true true ∧
    (send_dmx_packet
      (DMXState.mk (List.replicate 512 0) (some ⟨"/dev/ttyUSB0", true⟩) true true)
      false).snd.fst = false := by
  have h := C7_tick_failure
    (DMXState.mk (List.replicate 512 0) (some ⟨"/dev/ttyUSB0", true⟩) true true) rfl
  exact ⟨h.1, h.2.1⟩

/-- C8: `start_updates` on an already-running controller changes nothing,
so starting twice is the same as starting once. -/
theorem C8_start_idempotent (s : DMXState) :
    (s.running = true → start_updates s = s) ∧
    start_updates (start_updates s) = start_updates s := by
  constructor
  · intro h
    simp [start_updates, h]
  · cases hr : s.running <;> simp [start_updates, hr]

/-- C8 witness: starting a running controller is a no-op. -/
theorem C8_start_idempotent_witness :
    start_updates (DMXState.mk (List.replicate 512 0) none true true) =
      DMXState.mk (List.replicate 512 0) none true true :=
  (C8_start_idempotent (DMXState.mk (List.replicate 512 0) none true true)).1 rfl

/-- C9: the `/dmx` route applies the values via `set_channels` starting at
the request's start address (default 1) and answers with exactly that
address and the number of values processed. -/
theorem C9_update_route (s : DMXState) (sa : Option Int) (ch : Option (List Int)) :
    (update_dmx s sa ch).snd.fst = sa.getD 1 ∧
    (update_dmx s sa ch).snd.snd = (ch.getD []).length ∧
    (update_dmx s sa ch).fst = set_channels s (sa.getD 1) (ch.getD []) ∧
    (update_dmx s none ch).snd.fst = 1 :=
  ⟨rfl, rfl, rfl, rfl⟩

/-- C10: on a connected controller, `stop` clears `running` and closes the
serial handle but keeps the handle in the `serial_port` field; the universe
and thread fields are untouched, so `status` after `stop` still reports
connected = true with running = false. -/
theorem C10_stop_spec (s : DMXState) (h : s.serial_port.isSome) :
    (stop s).running = false ∧
    (stop s).serial_port.isSome = true ∧
    (stop s).dmx_data = s.dmx_data ∧
    (stop s).update_thread = s.update_thread ∧
    (∀ hd, s.serial_port = some hd →
      (stop s).serial_port = some { hd with isOpen := false }) ∧
    get_status (stop s) = (true, s.serial_port.map SerialHandle.port, false) := by
  obtain ⟨hd, hhd⟩ := Option.isSome_iff_exists.mp h
  refine ⟨rfl, ?_, rfl, rfl, ?_, ?_⟩
  · unfold stop
    rw [hhd]
    rfl
  · intro hd' hhd'
    unfold stop
    rw [hhd']
    rfl
  · unfold get_status stop
    rw [hhd]
    rfl

/-- C10 witness: stopping a concrete connected controller. -/
theorem C10_stop_spec_witness :
    (stop (DMXState.mk (List.replicate 512 0) (some ⟨"/dev/ttyUSB0", true⟩)
      true true)).running = false ∧
    get_status (stop (DMXState.mk (List.replicate 512 0)
      (some ⟨"/dev/ttyUSB0", true⟩) true true)) = (true, some "/dev/ttyUSB0", false) := by
  have h := C10_stop_spec
    (DMXState.mk (List.replicate 512 0) (some ⟨"/dev/ttyUSB0", true⟩) true true) rfl
  refine ⟨h.1, ?_⟩
  rw [h.2.2.2.2.2]
  rfl

end DMX
